import Mathlib

/-!
Verification development for the multi-agent portfolio/trading analysis
engine.  The Lean definitions below are a shallow embedding of the Python
sources:

  * `src/src/graph/workflow.py`          - the conditional routing graph
  * `src/src/nodes/validator_node.py`    - the response validator node
  * `src/src/tools/validator_tools.py`   - ambiguity / sufficiency / fact checks
  * `src/src/workflows/trading_workflow.py` - the 6-agent deliberation loop
                                             and the structured extractor
  * `src/src/tools/market_tools.py`      - single and batch quote lookup

Python strings are modelled by `String` (operating on `String.data`,
the list of characters), dictionaries threaded through the graph by a
record type, and the external effects (LLM calls, yfinance fetches,
the autogen message stream) by explicit oracle parameters.  Python float
arithmetic in the validator's confidence score is modelled by exact
rational arithmetic; no claim below depends on a float rounding boundary.
-/

namespace MarketingAgents

/-! ## Python string primitives

Helpers mirroring the Python string operations used by the sources:
`in` (substring test), `.lower()`, `.upper()`, `.strip()`, `.split()`,
and the character classes of the regexes (`\s`, `\w`, `[A-Z]`, `\d`).
-/

/-- Python `\s` / `str.strip` whitespace (space, tab, newline, CR, VT, FF). -/
def isPyWs (c : Char) : Bool :=
  c = ' ' || c = '\t' || c = '\n' || c = '\r' || c = '\x0b' || c = '\x0c'

/-- ASCII uppercase letter `[A-Z]`. -/
def isUpperAZ (c : Char) : Bool := 'A' ≤ c && c ≤ 'Z'

/-- ASCII lowercase letter `[a-z]`. -/
def isLowerAZ (c : Char) : Bool := 'a' ≤ c && c ≤ 'z'

/-- ASCII letter. -/
def isLetterAZ (c : Char) : Bool := isUpperAZ c || isLowerAZ c

/-- ASCII digit `\d`. -/
def isDigit09 (c : Char) : Bool := '0' ≤ c && c ≤ '9'

/-- Regex word character `\w` (over the ASCII inputs of this system). -/
def isWordChar (c : Char) : Bool := isLetterAZ c || isDigit09 c || c = '_'

/-- Python `str.lower()` (ASCII). -/
def pyLower (s : String) : String := ⟨s.data.map Char.toLower⟩

/-- Python `str.upper()` (ASCII). -/
def pyUpper (s : String) : String := ⟨s.data.map Char.toUpper⟩

/-- Python `str.strip()`. -/
def pyStrip (s : String) : String :=
  ⟨((s.data.dropWhile isPyWs).reverse.dropWhile isPyWs).reverse⟩

/-- One step of `needle in hay` on character lists. -/
def listIsInfix (needle : List Char) : List Char → Bool
  | [] => needle.isEmpty
  | c :: rest => needle.isPrefixOf (c :: rest) || listIsInfix needle rest

/-- Python `needle in hay` for strings. -/
def pyIn (needle hay : String) : Bool := listIsInfix needle.data hay.data

/-- Case-insensitive substring test (`needle in hay` after lowering both). -/
def pyInCI (needle hay : String) : Bool := pyIn (pyLower needle) (pyLower hay)

/-- Splitter underlying `str.split()` and the `\w+` runs: cuts `cs` into the
maximal runs of characters satisfying `keep`, dropping the separators. -/
def charRuns (keep : Char → Bool) : List Char → List Char → List (List Char)
  | acc, [] => if acc.isEmpty then [] else [acc.reverse]
  | acc, c :: rest =>
    if keep c then charRuns keep (c :: acc) rest
    else if acc.isEmpty then charRuns keep [] rest
    else acc.reverse :: charRuns keep [] rest

/-- Python `str.split()` (split on whitespace, dropping empty pieces). -/
def pySplit (s : String) : List String :=
  (charRuns (fun c => !isPyWs c) [] s.data).map List.asString

/-! ## Conditional router (`src/src/graph/workflow.py`)

The LangGraph workflow has four nodes.  `route_after_planner` and
`route_after_portfolio` are the two conditional-edge functions; the
static edges are Planner -> (conditional) -> {Portfolio, Market,
Validator}, Portfolio -> (conditional) -> {Market, Validator},
Market -> Validator, Validator -> END. -/

/-- The four node types of the workflow graph. -/
inductive Node
  | planner
  | portfolio_agent
  | market_agent
  | validator
deriving DecidableEq, Repr

/-- `route_after_planner`: the conditional edge out of the planner.  The
Python function reads `needs_portfolio` / `needs_market` from the state
dict (default `False`); the two booleans are passed here directly. -/
def route_after_planner (needs_portfolio needs_market : Bool) : Node :=
  if needs_portfolio then .portfolio_agent
  else if needs_market then .market_agent
  else .validator

/-- `route_after_portfolio`: the conditional edge out of the portfolio agent. -/
def route_after_portfolio (needs_market : Bool) : Node :=
  if needs_market then .market_agent else .validator

/-- The successor of each node in the compiled graph of `create_workflow`,
for a request whose planner set the flags `(p, m)`: the two conditional
edges plus the static edges `market_agent -> validator -> END`.
`none` is END. -/
def nextNode (p m : Bool) : Node → Option Node
  | .planner => some (route_after_planner p m)
  | .portfolio_agent => some (route_after_portfolio m)
  | .market_agent => some .validator
  | .validator => none

/-- Execute the graph from `n` with at most `fuel` further node executions,
returning the executed node list, or `none` if `fuel` runs out before END. -/
def runNodes (p m : Bool) : Nat → Node → Option (List Node)
  | 0, _ => none
  | fuel + 1, n =>
    match nextNode p m n with
    | none => some [n]
    | some n' => (runNodes p m fuel n').map (n :: ·)

/-- A full workflow execution for flag combination `(p, m)`: start at the
planner (the graph's entry edge) with fuel for 4 node executions. -/
def workflowTrace (p m : Bool) : Option (List Node) :=
  runNodes p m 4 .planner

/-- The route the specification describes for each flag combination:
portfolio first when `needs_portfolio`, then market iff `needs_market`;
market only when market-only; straight to the validator when neither. -/
def claimedRoute (p m : Bool) : List Node :=
  if p then
    if m then [.planner, .portfolio_agent, .market_agent, .validator]
    else [.planner, .portfolio_agent, .validator]
  else if m then [.planner, .market_agent, .validator]
  else [.planner, .validator]

/-! ## Market data tools (`src/src/tools/market_tools.py`)

`get_stock_price` talks to yfinance; that external interaction is an
oracle value `FetchOutcome` here (the historical closes that
`stock.history` returns, the optional `stock.info` dict, or the raised
exception).  Prices are modelled by exact rationals. -/

/-- The fields of `stock.info` that `get_stock_price` reads (each via
`info.get`, so each may be absent). -/
structure TickerInfo where
  longName : Option String := none
  sector : Option String := none
  industry : Option String := none
  marketCap : Option ℚ := none
  fiftyTwoWeekHigh : Option ℚ := none
  fiftyTwoWeekLow : Option ℚ := none
deriving DecidableEq, Repr

/-- Oracle for the yfinance interaction of one `get_stock_price` call:
the 5-day close column and the YTD close column with the optional
`info` dict, or an empty history, or a raised exception.  An exception
anywhere inside the `try` block is `exn` (the code's `except` catches
them all). -/
inductive FetchOutcome
  | hist (closes : List ℚ) (ytdCloses : List ℚ) (info : Option TickerInfo)
  | noHist
  | exn (msg : String)
deriving DecidableEq, Repr

/-- The dict shape returned by `get_stock_price` /
`get_multiple_stock_prices`: keys that are not always present are
`Option` fields (`error`, `note`, `data_source` appear only on some
paths; numeric fields are `None` on the error path). -/
structure Quote where
  symbol : String
  name : Option String := none
  current_price : Option ℚ := none
  previous_close : Option ℚ := none
  day_change : Option ℚ := none
  day_change_pct : Option ℚ := none
  ytd_return : Option ℚ := none
  week52_high : Option ℚ := none
  week52_low : Option ℚ := none
  market_cap : Option ℚ := none
  sector : Option String := none
  industry : Option String := none
  data_source : Option String := none
  note : Option String := none
  error : Option String := none
deriving DecidableEq, Repr

/-- The `demo_prices` fallback table of `get_stock_price`:
ticker -> (price, change_pct, name). -/
def demo_prices : List (String × ℚ × ℚ × String) :=
  [("AAPL", (17872/100, 123/100, "Apple Inc.")),
   ("MSFT", (37891/100, 85/100, "Microsoft Corporation")),
   ("GOOGL", (13845/100, -42/100, "Alphabet Inc.")),
   ("AMZN", (14532/100, 112/100, "Amazon.com Inc.")),
   ("TSLA", (24284/100, 234/100, "Tesla Inc.")),
   ("META", (31256/100, 98/100, "Meta Platforms Inc.")),
   ("NVDA", (49522/100, 345/100, "NVIDIA Corporation")),
   ("VTI", (25542/100, 67/100, "Vanguard Total Stock Market ETF")),
   ("BND", (7485/100, -12/100, "Vanguard Total Bond Market ETF")),
   ("VXUS", (6218/100, 45/100, "Vanguard Total International Stock ETF")),
   ("VYM", (11530/100, 32/100, "Vanguard High Dividend Yield ETF")),
   ("VTEB", (5095/100, -8/100, "Vanguard Tax-Exempt Bond ETF"))]

/-- `demo_prices[ticker.upper()]` lookup. -/
def demoLookup (ticker : String) : Option (ℚ × ℚ × String) :=
  (demo_prices.find? (fun e => e.1 = pyUpper ticker)).map (·.2)

/-- The demo-data quote built in both demo branches of `get_stock_price`
(`withNote` is true in the `except` branch, which adds the `note` key). -/
def demoQuote (ticker : String) (price changePct : ℚ) (nm : String)
    (withNote : Bool) : Quote :=
  { symbol := ticker
    name := some nm
    current_price := some price
    previous_close := some (price * (1 - changePct / 100))
    day_change := some (price * changePct / 100)
    day_change_pct := some changePct
    sector := some "N/A"
    industry := some "N/A"
    data_source := some "demo"
    note := if withNote then some "Using demo data due to API limitations" else none }

/-- The error dict of `get_stock_price`'s last-resort branch. -/
def errorQuote (ticker msg : String) : Quote :=
  { symbol := ticker
    error := some ("Error fetching price for " ++ ticker ++ ": " ++ msg)
    current_price := none }

/-- The `else` branch shared by an empty history and a caught exception:
demo data if the ticker is in the table, otherwise the error dict
(an empty history raises `ValueError`, caught by the same `except`;
`withNote` distinguishes the two demo dicts of the source). -/
def fallbackQuote (ticker msg : String) (withNote : Bool) : Quote :=
  match demoLookup ticker with
  | some (price, changePct, nm) => demoQuote ticker price changePct nm withNote
  | none => errorQuote ticker msg

/-- `get_stock_price(ticker)` with the yfinance interaction `o`. -/
def get_stock_price (ticker : String) (o : FetchOutcome) : Quote :=
  match o with
  | .hist closes ytdCloses info =>
    match closes.getLast? with
    | none => fallbackQuote ticker ("No historical data available for " ++ ticker) false
    | some current =>
      let previous_close :=
        if closes.length > 1 then (closes.get? (closes.length - 2)).getD current
        else current
      let (day_change, day_change_pct) :=
        if previous_close > 0 then
          (current - previous_close, (current - previous_close) / previous_close * 100)
        else (0, 0)
      let ytd_return :=
        match ytdCloses.head? with
        | some ytdStart => some ((current - ytdStart) / ytdStart * 100)
        | none => none
      { symbol := ticker
        name := some ((info.bind (·.longName)).getD ticker)
        current_price := some current
        previous_close := some previous_close
        day_change := some day_change
        day_change_pct := some day_change_pct
        ytd_return := ytd_return
        week52_high := info.bind (·.fiftyTwoWeekHigh)
        week52_low := info.bind (·.fiftyTwoWeekLow)
        market_cap := info.bind (·.marketCap)
        sector := some ((info.bind (·.sector)).getD "N/A")
        industry := some ((info.bind (·.industry)).getD "N/A") }
  | .noHist => fallbackQuote ticker ("No historical data available for " ++ ticker) false
  | .exn msg => fallbackQuote ticker msg true

/-- The `fetch_ticker_price` helper of `get_multiple_stock_prices`:
"CASH" is special-cased, everything else goes through `get_stock_price`
(the oracle `o` gives each ticker's yfinance outcome). -/
def fetch_ticker_price (ticker : String) (o : String → FetchOutcome) : Quote :=
  if pyUpper ticker = "CASH" then
    { symbol := ticker
      name := some "Cash"
      current_price := some 1
      day_change := some 0
      day_change_pct := some 0 }
  else get_stock_price ticker (o ticker)

/-- `get_multiple_stock_prices(tickers)` as the resulting map
ticker -> quote.  The source fills a dict from a thread pool
(`as_completed` only permutes insertion order; each key's value is
`fetch_ticker_price` of that ticker, so the final mapping is this
function). -/
def get_multiple_stock_prices (tickers : List String)
    (o : String → FetchOutcome) : String → Option Quote :=
  fun t => if t ∈ tickers then some (fetch_ticker_price t o) else none

/-! ## Validator tools (`src/src/tools/validator_tools.py`)

The graph state's `portfolio_data` is a dict (or `None`); the validator
tools test it for truthiness, for the `"holdings"` key and for the
holdings list.  `market_data` is a dict ticker -> quote dict tested
only for truthiness and keys. -/

/-- One row of `portfolio_data["holdings"]` (the two fields the
validator tools read). -/
structure Holding where
  symbol : String
  security_name : String
deriving DecidableEq, Repr

/-- `portfolio_data`: `None`/falsy dict, a truthy dict without the
`"holdings"` key, or a dict with a `"holdings"` list (such a dict is
truthy even when the list is empty). -/
inductive PData
  | nil
  | noKey
  | withHoldings (hs : List Holding)
deriving DecidableEq, Repr

/-- `market_data`: a dict ticker -> quote. -/
def MData := List (String × Quote)
deriving DecidableEq, Repr

/-- The portfolio ticker set `{h["symbol"] for h in portfolio_data["holdings"]}`
(empty when the dict is falsy or has no `"holdings"` key). -/
def portfolioTickers : PData → List String
  | .withHoldings hs => hs.map (·.symbol)
  | _ => []

/-- `set(market_data.keys())`. -/
def marketKeys (md : MData) : List String := md.map (·.1)

/-- `re.findall(r'\b[A-Z]{2,5}\b', s)` as a set (first occurrences kept):
the maximal `\w`-runs of `s` that consist of 2 to 5 uppercase letters.
(Interior positions of a longer word run match neither `\b`.)  The
source wraps the findall in `set(...)`, whose iteration order CPython
leaves unspecified; this model uses `dedup` order. -/
def mentionedTickers (s : String) : List String :=
  (((charRuns isWordChar [] s.data).filter
      (fun r => r.all isUpperAZ && decide (2 ≤ r.length) && decide (r.length ≤ 5))).map
    List.asString).dedup

/-- The `common_words` denylist (the source repeats the identical literal
set in `enhanced_fact_check` and `check_data_sufficiency`). -/
def common_words : List String :=
  ["AM", "AN", "AS", "AT", "BE", "BY", "DO", "GO", "HE", "IF", "IN", "IS",
   "IT", "ME", "MY", "NO", "OF", "ON", "OR", "SO", "TO", "UP", "US", "WE",
   "YA", "THE", "AND", "FOR", "ARE", "BUT", "NOT", "YOU", "ALL", "CAN",
   "HAD", "HER", "WAS", "ONE", "OUR", "OUT", "DAY", "GET", "HAS", "HIM",
   "HIS", "HOW", "ITS", "MAY", "NEW", "NOW", "OLD", "SEE", "TWO", "WAY",
   "WHO", "BOY", "DID", "CAR", "EAT", "FAR", "FUN", "GOT", "HOT", "LET",
   "MAN", "OWN", "RAN", "SAT", "SAY", "SHE", "TOP", "TRY", "USE", "WIN",
   "YES", "YET", "BIG", "WHY", "CUT", "OFF", "PUT", "RUN", "SET", "SIT",
   "TEN", "BAD", "BAG", "BED", "BOX", "END", "FEW", "LAW", "LAY", "LEG",
   "LET", "LIE", "LOT", "LOW", "MAP", "MET", "MIX", "NOR", "ODD", "OIL",
   "PAY", "PER", "PIT", "POT", "RED", "ROW", "SIX", "SKY", "SUM", "TAX",
   "TEA", "TIP", "TON", "TOO", "TOY", "VAN", "WAR", "WET", "WIN", "WON",
   "THAT", "WITH", "HAVE", "THIS", "WILL", "YOUR", "FROM", "THEY", "BEEN",
   "WERE", "WHAT", "WOULD", "THERE", "THEIR", "WHICH", "THAN", "THEM",
   "BEST", "EACH", "FIND", "GIVE", "JUST", "KNOW", "MADE", "MAKE", "MANY",
   "MORE", "MOST", "MUCH", "ONLY", "OVER", "SAID", "SAME", "SOME", "SUCH",
   "TAKE", "TELL", "THAN", "THEN", "VERY", "WANT", "WELL", "WENT", "WHEN",
   "DOES", "COME", "GOOD", "HELP", "HERE", "INTO", "LAST", "LIFE", "LIKE",
   "LONG", "LOOK", "NEED", "NEXT", "OPEN", "PART", "SEEM", "SHOW", "SIDE",
   "SURE", "TALK", "TURN", "USED", "WORK", "YEAR", "ALSO", "BACK", "BOTH",
   "CALL", "CAME", "CASE", "DONE", "DOWN", "EVEN", "FACT", "FEEL", "FOUR",
   "FREE", "FULL", "GAVE", "GETS", "GOES", "GONE", "HALF", "HAND", "HEAD",
   "HIGH", "HOME", "KEEP", "KIND", "KNEW", "KNOW", "LATE", "LEAD", "LEFT",
   "LESS", "LINE", "LIST", "LIVE", "LONG", "LOSE", "LOST", "MAIN", "MEAN",
   "MEET", "MIND", "MOVE", "MUST", "NAME", "NEAR", "ONCE", "PASS", "PAST",
   "PLAY", "PULL", "PUSH", "READ", "REAL", "REST", "RISE", "ROOM", "SAVE",
   "SEEN", "SELF", "SELL", "SENT", "SOON", "STAY", "STEP", "STOP", "TEAM",
   "TEND", "TEST", "TEXT", "THUS", "TOLD", "TOOK", "TOWN", "TREE", "TRUE",
   "UPON", "VIEW", "WAIT", "WALK", "WEEK", "WIDE", "WISH", "WITH", "WORD",
   "WORE", "YARD", "ABOUT", "AFTER", "AGAIN", "BEING", "BELOW", "COULD",
   "DOING", "EVERY", "FIRST", "FOUND", "GOING", "GREAT", "GROUP", "LARGE",
   "LATER", "LEAVE", "MIGHT", "NEVER", "OTHER", "PLACE", "RIGHT", "SHALL",
   "SINCE", "SMALL", "STILL", "THEIR", "THERE", "THESE", "THING", "THINK",
   "THOSE", "THREE", "TIMES", "TODAY", "UNDER", "UNTIL", "USING", "WANTS",
   "WHERE", "WHICH", "WHILE", "WHOSE", "WOMAN", "WORLD", "WOULD", "WRITE",
   "YEARS", "YOUNG", "ETF", "ETFS", "FUND", "FUNDS", "STOCK", "STOCKS",
   "BOND", "BONDS", "PRICE", "PRICES", "SHARE", "SHARES", "ASSET", "ASSETS",
   "MARKET", "CASH", "OWNS", "HOLDINGS", "RETURN", "RETURNS", "GAIN",
   "GAINS", "LOSS", "LOSSES", "VALUE", "VALUES", "TOTAL", "HOLD", "HOLDING",
   "WORTH", "PORTFOLIO", "PORTFOLIOS", "RISK", "RISKS", "PROFILE",
   "DIVERSITY", "DIVERSIFIED", "ALLOCATION", "CLT", "CLASS", "BUY", "SELL",
   "TRADE", "SHOULD", "WOULD", "COULD"]

/-- One entry of a conversation history (`{role, content}`);
`detect_ambiguity` only tests the history for emptiness. -/
structure HistMsg where
  role : String
  content : String
deriving DecidableEq, Repr

/-- `detect_ambiguity`'s `vague_pronouns` list, in source order. -/
def vague_pronouns : List String :=
  ["it", "that stock", "that one", "this one", "the stock", "them", "those"]

/-- One entry of `detect_ambiguity`'s `relative_terms` dict. -/
structure RelTerm where
  term : String
  clarification : String
  context_words : List String

/-- `relative_terms`, in source (insertion) order. -/
def relative_terms : List RelTerm :=
  [{ term := "best",
     clarification := "Best by what metric? (highest return, highest value, lowest risk?)",
     context_words := ["return", "value", "gain", "loss", "price", "performance", "profit"] },
   { term := "worst",
     clarification := "Worst by what metric? (lowest return, highest loss, highest volatility?)",
     context_words := ["return", "value", "gain", "loss", "price", "performance"] },
   { term := "top",
     clarification := "Top by what criterion? (return, value, gain?)",
     context_words := ["return", "value", "gain", "performer", "holding"] },
   { term := "most",
     clarification := "Most in what sense? (shares, value, percentage?)",
     context_words := ["shares", "value", "percentage", "allocation", "weight"] },
   { term := "first",
     clarification := "First in what order? (alphabetically, by value, by return?)",
     context_words := ["alphabetically", "value", "return", "largest", "biggest"] }]

/-- `time_references`, in source order. -/
def time_references : List (String × String) :=
  [("recent", "How recent? (past week, month, quarter?)"),
   ("lately", "What time period do you mean? (past week, month?)"),
   ("previously", "When specifically? (last week, last month?)")]

/-- The timeframe words that defuse a vague time reference. -/
def timeframe_words : List String := ["week", "month", "year", "day", "quarter"]

/-- `detect_ambiguity(query, conversation_history)`.  Each check returns
on its first hit, in source order; a pronoun hit only fires when the
history is empty (a later pronoun is tested against the same history,
so the combined predicate inside `find?` is equivalent to the source's
two nested `if`s). -/
def detect_ambiguity (query : String) (history : List HistMsg) : Bool × String :=
  let ql := pyStrip (pyLower query)
  match vague_pronouns.find? (fun p => pyIn p ql && history.isEmpty) with
  | some p =>
    (true, "Which specific stock are you referring to when you say '" ++ p ++ "'?")
  | none =>
  match relative_terms.find?
      (fun t => pyIn t.term ql && decide (ql.length < 80)
        && !(t.context_words.any (fun w => pyIn w ql))) with
  | some t => (true, t.clarification)
  | none =>
  match time_references.find?
      (fun t => pyIn t.1 ql && !(timeframe_words.any (fun w => pyIn w ql))) with
  | some t => (true, t.2)
  | none =>
    if (pyIn "compared to" ql || pyIn "versus" ql || pyIn "vs" ql)
        && decide ((pySplit ql).length < 5) then
      (true, "What are you comparing? Please specify both items.")
    else (false, "")

/-- The `portfolio_keywords` of `check_data_sufficiency`. -/
def sufficiency_portfolio_keywords : List String :=
  ["my stocks", "my holdings", "my portfolio", "what do i own"]

/-- Whether `portfolio_data` is a dict with a non-empty `"holdings"` list
(`not portfolio_data or "holdings" not in portfolio_data or not
portfolio_data["holdings"]` is the negation of this). -/
def pdataHasHoldings : PData → Bool
  | .withHoldings (_ :: _) => true
  | _ => false

/-- `check_data_sufficiency(query, portfolio_data, market_data)`.
The source iterates over the *set* of unknown mentioned tickers (CPython
set order is unspecified); this model returns the first unknown ticker
in `dedup` order, which fixes one admissible iteration order. -/
def check_data_sufficiency (query : String) (pd : PData) (md : MData) :
    Bool × String :=
  let ql := pyLower query
  let mentioned := (mentionedTickers (pyUpper query)).filter
    (fun t => decide (t ∉ common_words))
  let known := portfolioTickers pd ++ marketKeys md
  match mentioned.find? (fun t => decide (t ∉ known)) with
  | some t =>
    if pyIn "portfolio" ql || pyIn "my" ql then
      (false, "Your portfolio doesn't contain " ++ t ++ ". Did you mean a different stock?")
    else
      (false, "I don't have market data for " ++ t ++ ". Would you like me to search for it?")
  | none =>
    if sufficiency_portfolio_keywords.any (fun k => pyIn k ql)
        && !pdataHasHoldings pd then
      (false, "I don't have your portfolio data loaded. Please check the client ID.")
    else if (pyIn "price" ql || pyIn "trading" ql) && md.isEmpty then
      (false, "I don't have current market data. There may be a connectivity issue with market data sources.")
    else (true, "")

/-- The result of `enhanced_fact_check`.  `unknown_tickers` is the
source's intermediate set `unknown_tickers` (kept as a field so the
theorems can speak about it); `hallucinations` is the message list the
source builds from it, joining the set in `dedup` order.  The numeric
price-deviation and percentage checks fill only the `issues` list,
which `validator_node` never reads; they are not modelled. -/
structure FactCheck where
  unknown_tickers : List String
  hallucinations : List String
  has_hallucinations : Bool
  fact_check_passed : Bool
deriving DecidableEq, Repr

/-- `enhanced_fact_check(response, portfolio_data, market_data)`
(hallucination detection). -/
def enhanced_fact_check (response : String) (pd : PData) (md : MData) : FactCheck :=
  let mentioned := mentionedTickers response
  let known := portfolioTickers pd ++ marketKeys md
  let unknown := mentioned.filter
    (fun t => decide (t ∉ known) && decide (t ∉ common_words))
  { unknown_tickers := unknown
    hallucinations :=
      if unknown.isEmpty then []
      else ["Mentions tickers not in available data: " ++ String.intercalate ", " unknown]
    has_hallucinations := !unknown.isEmpty
    fact_check_passed := unknown.isEmpty }

/-- The result of `validate_response`.  Python accumulates `confidence`
in floats; the model uses exact rationals (no claim below depends on a
rounding boundary of the 0.1/0.2/0.3 penalties). -/
structure VResult where
  is_valid : Bool
  issues : List String
  confidence : ℚ
deriving DecidableEq, Repr

/-- `validate_response`'s `vague_phrases`. -/
def vague_phrases : List String :=
  ["I don't have access", "I cannot see", "I don't have information", "unable to provide"]

/-- `validate_response`'s `price_keywords`. -/
def price_keywords : List String := ["price", "trading", "market", "value"]

/-- `validate_response`'s `contradiction_pairs`. -/
def contradiction_pairs : List (String × String) :=
  [("increase", "decrease"), ("gain", "loss"), ("up", "down"), ("positive", "negative")]

/-- `validate_response(response, query, data_sources)` where
`data_sources = {"portfolio_data": pd, "market_data": md}`. -/
def validate_response (response query : String) (pd : PData) (md : MData) : VResult :=
  if decide (response = "") || decide ((pyStrip response).length < 10) then
    { is_valid := false, issues := ["Response is too short or empty"], confidence := 0 }
  else
    let rl := pyLower response
    let ql := pyLower query
    let vague := vague_phrases.filter (fun p => pyIn (pyLower p) rl)
    let vagueIssues := vague.map
      (fun p => "Response contains vague statement: '" ++ p ++ "'")
    let pen1 : ℚ := vague.length * (2/10)
    let portfolioCheck : List String × ℚ :=
      match pd with
      | .withHoldings hs =>
        if decide (0 < hs.length) && pyIn "portfolio" ql then
          if hs.any (fun h => pyIn h.symbol response || pyIn h.security_name response)
          then ([], 0)
          else (["Response doesn't reference any actual portfolio holdings"], 3/10)
        else ([], 0)
      | _ => ([], 0)
    let marketCheck : List String × ℚ :=
      if !md.isEmpty then
        if price_keywords.any (fun k => pyIn k ql) then
          if response.data.any isDigit09 then ([], 0)
          else (["Response lacks specific numerical data for price query"], 2/10)
        else ([], 0)
      else ([], 0)
    let contra := contradiction_pairs.filter (fun pr => pyIn pr.1 rl && pyIn pr.2 rl)
    let contraIssues := contra.map (fun pr =>
      "Response contains potentially contradictory terms: '" ++ pr.1 ++ "' and '" ++ pr.2 ++ "'")
    let pen4 : ℚ := contra.length * (1/10)
    let confidence0 : ℚ := 1 - pen1 - portfolioCheck.2 - marketCheck.2 - pen4
    { is_valid := !decide (confidence0 < 1/2)
      issues := vagueIssues ++ portfolioCheck.1 ++ marketCheck.1 ++ contraIssues
      confidence := max 0 (min 1 confidence0) }

/-- The result of `check_data_coverage`. -/
structure Coverage where
  has_portfolio_data : Bool
  has_market_data : Bool
  sufficient_data : Bool
  missing_data : List String
deriving DecidableEq, Repr

/-- `check_data_coverage(query, portfolio_data, market_data)`. -/
def check_data_coverage (query : String) (pd : PData) (md : MData) : Coverage :=
  let ql := pyLower query
  let portfolioPart : Bool × List String :=
    match pd with
    | .withHoldings (_ :: _) => (true, [])
    | .withHoldings [] => (false, ["No holdings found in portfolio"])
    | _ => (false, ["Portfolio data not loaded"])
  let marketPart : Bool × List String :=
    if !md.isEmpty then (true, [])
    else if pyIn "price" ql || pyIn "market" ql then (false, ["Market data not available"])
    else (false, [])
  let sufficient :=
    if ["own", "holdings", "stocks do i have"].any (fun k => pyIn k ql) then
      portfolioPart.1
    else if pyIn "price of" ql || pyIn "how is" ql then
      marketPart.1
    else if ["in my portfolio", "my holdings"].any (fun k => pyIn k ql) then
      portfolioPart.1 && marketPart.1
    else
      portfolioPart.1 || marketPart.1
  { has_portfolio_data := portfolioPart.1
    has_market_data := marketPart.1
    sufficient_data := sufficient
    missing_data := portfolioPart.2 ++ marketPart.2 }

/-! ## Graph state and the validator node (`src/src/nodes/validator_node.py`)

The loosely-typed state dict threaded through the LangGraph workflow,
as a record.  The initial dict of `run_workflow` sets `portfolio_data`
and `market_data` to `None`; `None` and `{}` behave identically in
every consuming test (truthiness, key lookup), so both are `PData.nil`
/ the empty `MData` here.  `needs_clarification` and
`clarification_message` are absent from the initial dict and only ever
written by the validator; they carry neutral defaults. -/

structure WState where
  query : String := ""
  client_id : String := ""
  portfolio_data : PData := .nil
  market_data : MData := []
  plan : String := ""
  needs_portfolio : Bool := false
  needs_market : Bool := false
  wants_recommendations : Bool := false
  response : String := ""
  validated : Bool := false
  needs_clarification : Bool := false
  clarification_message : Option String := none
  conversation_history : List HistMsg := []

/-- The initial state dict of `run_workflow(query, client_id)`. -/
def initial_state (query client_id : String) : WState :=
  { query := query, client_id := client_id }

/-- The warning block appended when `enhanced_fact_check` reports
hallucinations. -/
def hallucinationWarning (hallucinations : List String) : String :=
  "\n\n---\n" ++ "⚠️ Warning: Response validation detected potential issues:\n"
    ++ String.join (hallucinations.map (fun h => "- " ++ h ++ "\n"))

/-- The disclaimer footer appended when validation fails or confidence
is below 0.7. -/
def limitationFooter (issues : List String) (cov : Coverage) : String :=
  "\n\n---\n" ++ "Note: This response may have limitations. "
    ++ (if !issues.isEmpty then
          "Issues detected: " ++ String.intercalate ", " (issues.take 2)
        else "")
    ++ (if !cov.sufficient_data then
          " Missing data: " ++ String.intercalate ", " cov.missing_data
        else "")

/-- `validator_node(state)`: ambiguity check, data-sufficiency check,
hallucination check, then the original validation with the
low-confidence disclaimer. -/
def validator_node (s : WState) : WState :=
  let amb := detect_ambiguity s.query s.conversation_history
  if amb.1 then
    { s with needs_clarification := true
             clarification_message := some amb.2
             validated := false }
  else
    let suff := check_data_sufficiency s.query s.portfolio_data s.market_data
    if !suff.1 then
      { s with response := suff.2, validated := true, needs_clarification := false }
    else
      let fc := enhanced_fact_check s.response s.portfolio_data s.market_data
      if fc.has_hallucinations then
        { s with response := s.response ++ hallucinationWarning fc.hallucinations
                 validated := true
                 needs_clarification := false }
      else
        let vr := validate_response s.response s.query s.portfolio_data s.market_data
        let cov := check_data_coverage s.query s.portfolio_data s.market_data
        if !vr.is_valid || decide (vr.confidence < 7/10) then
          { s with response := s.response ++ limitationFooter vr.issues cov
                   validated := true
                   needs_clarification := false }
        else
          { s with validated := true, needs_clarification := false }

/-! ## Planner node and the executed workflow
(`src/src/nodes/planner_node.py`, `src/src/graph/workflow.py`)

The planner issues one LLM call and parses the returned text for
"Portfolio Data Needed: YES" / "Market Data Needed: YES" /
"Wants Recommendations: YES", with a keyword fallback over the query
when neither data flag parses.  The LLM text is an oracle parameter.
The portfolio and market nodes load external data and issue one LLM
call each, then write `portfolio_data`/`market_data` and `response`;
their loaded data and generated text are oracle parameters. -/

/-- The planner fallback's `portfolio_keywords`. -/
def planner_portfolio_keywords : List String :=
  ["own", "holdings", "my stocks", "my portfolio", "what stocks",
   "total value", "portfolio value", "total worth", "how much",
   "value i hold", "my total", "what do i have",
   "risk profile", "how risky", "diversified", "diversity",
   "allocation", "sector allocation"]

/-- The planner fallback's `market_keywords`. -/
def planner_market_keywords : List String :=
  ["price", "market", "news", "performance", "trading", "how is", "doing",
   "return", "gain", "loss", "profit", "which stock", "what stock",
   "stock recommendation", "should i buy", "should i sell"]

/-- The planner fallback's `advice_keywords`. -/
def planner_advice_keywords : List String :=
  ["how to improve", "what should i do", "recommendations", "suggestions",
   "advice", "how can i", "should i buy", "should i sell", "optimize",
   "rebalance", "diversify", "which stock", "what stock", "recommend"]

/-- `planner_node(state)` with the LLM's plan text `llmPlan`. -/
def planner_node (llmPlan : String) (s : WState) : WState :=
  let ql := pyLower s.query
  let np0 := pyIn "Portfolio Data Needed: YES" llmPlan
    || pyIn "portfolio data needed: yes" (pyLower llmPlan)
  let nm0 := pyIn "Market Data Needed: YES" llmPlan
    || pyIn "market data needed: yes" (pyLower llmPlan)
  let wr0 := pyIn "Wants Recommendations: YES" llmPlan
    || pyIn "wants recommendations: yes" (pyLower llmPlan)
  let flags :=
    if !np0 && !nm0 then
      let np1 := planner_portfolio_keywords.any (fun k => pyIn k ql)
      let nm1 := planner_market_keywords.any (fun k => pyIn k ql)
      let both1 := pyIn "my" ql
        && ["stock", "holding", "market", "portfolio"].any (fun w => pyIn w ql)
      let both2 := ["return", "gain", "loss", "profit", "performance"].any
        (fun k => pyIn k ql)
      if both1 || both2 then (true, true) else (np1, nm1)
    else (np0, nm0)
  let wr :=
    if !wr0 then planner_advice_keywords.any (fun k => pyIn k ql) else wr0
  { s with plan := llmPlan
           needs_portfolio := flags.1
           needs_market := flags.2
           wants_recommendations := wr }

/-- `portfolio_node(state)`: loads the portfolio workbook and issues one
LLM call (both oracles), then writes `portfolio_data` and `response`. -/
def portfolio_node (loaded : PData) (llmText : String) (s : WState) : WState :=
  { s with portfolio_data := loaded, response := llmText }

/-- `market_node(state)`: fetches market data and issues one LLM call
(both oracles), then writes `market_data` and `response`. -/
def market_node (fetched : MData) (llmText : String) (s : WState) : WState :=
  { s with market_data := fetched, response := llmText }

/-- The oracle bundle for one workflow execution: the planner's LLM
text, the portfolio node's loaded data and LLM text, the market node's
fetched data and LLM text. -/
structure Oracles where
  plannerText : String := ""
  portfolioData : PData := .nil
  portfolioText : String := ""
  marketData : MData := []
  marketText : String := ""

/-- One full execution of the compiled workflow on `s0`: planner, then
the conditional routes of `create_workflow`, ending at the validator.
Returns the final state and the list of executed nodes. -/
def exec_workflow (o : Oracles) (s0 : WState) : WState × List Node :=
  let s1 := planner_node o.plannerText s0
  match route_after_planner s1.needs_portfolio s1.needs_market with
  | .portfolio_agent =>
    let s2 := portfolio_node o.portfolioData o.portfolioText s1
    (match route_after_portfolio s2.needs_market with
     | .market_agent =>
       let s3 := market_node o.marketData o.marketText s2
       (validator_node s3, [.planner, .portfolio_agent, .market_agent, .validator])
     | _ => (validator_node s2, [.planner, .portfolio_agent, .validator]))
  | .market_agent =>
    let s2 := market_node o.marketData o.marketText s1
    (validator_node s2, [.planner, .market_agent, .validator])
  | _ => (validator_node s1, [.planner, .validator])

/-! ## Structured extractor and deliberation loop
(`src/src/workflows/trading_workflow.py`, `run_fast_6agent_analysis`)

The regexes of the extraction code are embedded as explicit scanners
over `List Char`, following Python `re` semantics (leftmost match,
greedy/lazy backtracking, `IGNORECASE`, and `MULTILINE` `$`). -/

/-- Python `str.startswith`. -/
def pyStartsWith (p s : String) : Bool := p.data.isPrefixOf s.data

/-- Match `needle` (given lowercase) case-insensitively as a prefix of
`s`, returning the rest. -/
def dropPrefixCI : List Char → List Char → Option (List Char)
  | [], rest => some rest
  | _ :: _, [] => none
  | n :: ns, c :: cs => if c.toLower = n then dropPrefixCI ns cs else none

/-- Consume up to `k` leading `'*'` characters (the `\*?\*?` of the
anchor patterns; `'*'` matches nothing later in those patterns, so the
greedy reading is exact). -/
def dropStars : Nat → List Char → List Char
  | 0, cs => cs
  | _ + 1, [] => []
  | k + 1, c :: cs => if c = '*' then dropStars k cs else c :: cs

/-- The capture class `[A-Z\s\-\']` under `IGNORECASE` (note `\s`
includes the newline). -/
def recClassChar (c : Char) : Bool :=
  isLetterAZ c || isPyWs c || c = '-' || c = '\''

/-- The lazy capture `([A-Z\s\-\']+?)(?:\n|$)` (with `MULTILINE` `$`):
consume at least one class character, stopping at the first position
whose next character is a newline (or at the end of the input); any
other character fails the whole attempt. -/
def recCapture (acc : List Char) : List Char → Option (List Char)
  | [] => if acc.isEmpty then none else some acc.reverse
  | c :: rest =>
    if !acc.isEmpty && c = '\n' then some acc.reverse
    else if recClassChar c then recCapture (c :: acc) rest
    else none

/-- The greedy `\s*` in front of the capture, with its backtracking into
the capture (the one case where giving whitespace back to the capture
matters is a capture that would otherwise be empty at end of input). -/
def recSkipCapture : List Char → Option (List Char)
  | [] => none
  | c :: rest =>
    if isPyWs c then
      match recSkipCapture rest with
      | some r => some r
      | none => recCapture [] (c :: rest)
    else recCapture [] (c :: rest)

/-- `re.search(r'RECOMMENDATION:\*?\*?\s*([A-Z\s\-\']+?)(?:\n|$)',
content, re.IGNORECASE | re.MULTILINE)`: try every start position left
to right; at each, the literal, up to two stars, whitespace, then the
lazy capture. -/
def findRecommendationText : List Char → Option (List Char)
  | [] => none
  | s@(_ :: rest) =>
    match dropPrefixCI "recommendation:".data s with
    | some afterColon =>
      match recSkipCapture (dropStars 2 afterColon) with
      | some cap => some cap
      | none => findRecommendationText rest
    | none => findRecommendationText rest

/-- The keyword ladder applied to the captured `RECOMMENDATION:` line
text (already stripped): negative patterns first, then WAIT / AVOID /
HOLD, then the positive patterns, else the line's first word uppercased
(`'HOLD'` when the line has no word). -/
def classify_recommendation (rec_text : String) : String :=
  let ru := pyUpper rec_text
  if pyIn "DON'T BUY" ru || pyIn "DONT BUY" ru || pyIn "DO NOT BUY" ru then "AVOID"
  else if pyIn "DON'T SELL" ru || pyIn "DONT SELL" ru then "HOLD"
  else if pyIn "WAIT" ru then "WAIT"
  else if pyIn "AVOID" ru then "AVOID"
  else if pyIn "HOLD" ru then "HOLD"
  else if pyIn "STRONG BUY" ru then "STRONG BUY"
  else if pyIn "BUY" ru then "BUY"
  else if pyIn "SELL" ru then "SELL"
  else
    match pySplit rec_text with
    | w :: _ => pyUpper w
    | [] => "HOLD"

/-- `re.search(r'ANSWER:\s*\*?\*?\s*(YES|NO)', content, re.IGNORECASE)`. -/
def answerYesNo : List Char → Option Bool
  | [] => none
  | s@(_ :: rest) =>
    match dropPrefixCI "answer:".data s with
    | some afterColon =>
      let t := (dropStars 2 (afterColon.dropWhile isPyWs)).dropWhile isPyWs
      match dropPrefixCI "yes".data t with
      | some _ => some true
      | none =>
        match dropPrefixCI "no".data t with
        | some _ => some false
        | none => answerYesNo rest
    | none => answerYesNo rest

/-- Case-insensitive whole-word search: `w` (given lowercase, all word
characters) occurs in `s` with no word character on either side.  This
is `re.search(r'\bW\b', s, re.IGNORECASE)`; for
`r'\b(STRONG\s+)?BUY\b'` the optional group never extends matchability,
so existence reduces to `\bBUY\b`. -/
def hasWordCIAux (w : List Char) : Option Char → List Char → Bool
  | _, [] => false
  | prev, s@(c :: rest) =>
    (match dropPrefixCI w s with
     | some after =>
       (match prev with
        | none => true
        | some p => !isWordChar p)
       && (match after with
           | [] => true
           | a :: _ => !isWordChar a)
     | none => false)
    || hasWordCIAux w (some c) rest

/-- Whole-word case-insensitive search in a string. -/
def hasWordCI (w s : String) : Bool := hasWordCIAux w.data none s.data

/-- Numeric value of a digit run. -/
def digitsToNat (ds : List Char) : Nat :=
  ds.foldl (fun a c => a * 10 + (c.toNat - 48)) 0

/-- `re.search(r'CONFIDENCE\s+LEVEL:\*?\*?\s*(\d+)/10', content,
re.IGNORECASE)`, returning the captured digits' value. -/
def confLevelSlash10 : List Char → Option Nat
  | [] => none
  | s@(_ :: rest) =>
    match dropPrefixCI "confidence".data s with
    | some t1 =>
      if (t1.takeWhile isPyWs).isEmpty then confLevelSlash10 rest
      else
        match dropPrefixCI "level:".data (t1.dropWhile isPyWs) with
        | some t2 =>
          let t3 := (dropStars 2 t2).dropWhile isPyWs
          let ds := t3.takeWhile isDigit09
          if ds.isEmpty then confLevelSlash10 rest
          else
            match t3.dropWhile isDigit09 with
            | '/' :: '1' :: '0' :: _ => some (digitsToNat ds)
            | _ => confLevelSlash10 rest
        | none => confLevelSlash10 rest
    | none => confLevelSlash10 rest

/-- The separator class `[:\s]`. -/
def isColonWs (c : Char) : Bool := c = ':' || isPyWs c

/-- `re.search(r'(?:CONFIDENCE|Confidence)[:\s]+\*?\*?\s*(\d+)%',
content, re.IGNORECASE)` (under `IGNORECASE` the alternation is just
`confidence`). -/
def confPercent : List Char → Option Nat
  | [] => none
  | s@(_ :: rest) =>
    match dropPrefixCI "confidence".data s with
    | some t1 =>
      if (t1.takeWhile isColonWs).isEmpty then confPercent rest
      else
        let t2 := (dropStars 2 (t1.dropWhile isColonWs)).dropWhile isPyWs
        let ds := t2.takeWhile isDigit09
        if ds.isEmpty then confPercent rest
        else
          match t2.dropWhile isDigit09 with
          | '%' :: _ => some (digitsToNat ds)
          | _ => confPercent rest
    | none => confPercent rest

/-- A `(\d+)/10(?:\s|$)` match whose digits start at the head of `cs`
(the digit run is maximal; a shortened run would put a digit where `/`
must stand). -/
def slash10At (cs : List Char) : Option Nat :=
  let ds := cs.takeWhile isDigit09
  if ds.isEmpty then none
  else
    match cs.dropWhile isDigit09 with
    | '/' :: '1' :: '0' :: t =>
      match t with
      | [] => some (digitsToNat ds)
      | c :: _ => if isPyWs c then some (digitsToNat ds) else none
    | _ => none

/-- `re.search(r'(?:^|\s)(\d+)/10(?:\s|$)', content, re.MULTILINE)`:
at each position, the `^` alternative (line start, digits here) then
the `\s` alternative (whitespace here, digits after). -/
def standaloneSlash10Aux : Option Char → List Char → Option Nat
  | _, [] => none
  | prev, c :: rest =>
    let lineStart :=
      match prev with
      | none => true
      | some p => p = '\n'
    match (if lineStart then slash10At (c :: rest) else none) with
    | some v => some v
    | none =>
      match (if isPyWs c then slash10At rest else none) with
      | some v => some v
      | none => standaloneSlash10Aux (some c) rest

/-- The standalone `X/10` pattern over a whole string. -/
def standaloneSlash10 (cs : List Char) : Option Nat :=
  standaloneSlash10Aux none cs

/-- The recommendation-extraction step run on one ReportAgent message:
the anchored `RECOMMENDATION:` line overwrites any previous value; when
the variable is still unset, the `ANSWER: YES/NO` pattern, then the
last-resort whole-content keyword scan (`BUY`, `SELL`, `HOLD` word
matches, in that order - with no negative-pattern check). -/
def stepExtractRec (old : Option String) (content : String) : Option String :=
  let afterAnchor :=
    match findRecommendationText content.data with
    | some cap => some (classify_recommendation (pyStrip cap.asString))
    | none => old
  match afterAnchor with
  | some r => some r
  | none =>
    match answerYesNo content.data with
    | some true => some "BUY"
    | some false => some "WAIT"
    | none =>
      if hasWordCI "buy" content then some "BUY"
      else if hasWordCI "sell" content then some "SELL"
      else if hasWordCI "hold" content then some "HOLD"
      else none

/-- The confidence-extraction step run on one ReportAgent message:
anchored `CONFIDENCE LEVEL: X/10` (value `X*10`), else
`CONFIDENCE: X%` (value `X`), else a standalone `X/10` (value `X*10`),
else the previous value. -/
def stepExtractConf (old : Option Nat) (content : String) : Option Nat :=
  match confLevelSlash10 content.data with
  | some x => some (x * 10)
  | none =>
    match confPercent content.data with
    | some x => some x
    | none =>
      match standaloneSlash10 content.data with
      | some x => some (x * 10)
      | none => old

/-- The extractor applied to a single report text (no previous value). -/
def extract_recommendation (content : String) : Option String :=
  stepExtractRec none content

/-- The confidence extractor applied to a single report text. -/
def extract_confidence (content : String) : Option Nat :=
  stepExtractConf none content

/-! ### The streaming consumption loop -/

/-- One message of the autogen result stream.  `hasContent` models the
`hasattr(message, 'content')` test (the stream's final `TaskResult` has
no `content`); tool-call/tool-result sub-messages are `TextMessage`s
whose content begins `[FunctionCall` / `[FunctionExecutionResult`. -/
structure AgentMessage where
  source : String
  content : String
  hasContent : Bool := true
deriving DecidableEq, Repr

/-- Whether a message counts toward `agent_responses`: it has content,
is not the user task message, and is not a tool sub-message. -/
def countedResponder (m : AgentMessage) : Bool :=
  m.hasContent && !(m.source = "user")
    && !(pyStartsWith "[FunctionCall" m.content)
    && !(pyStartsWith "[FunctionExecutionResult" m.content)

/-- Why the consumption loop stopped. -/
inductive StopReason
  | quotaOrSentinel
  | ceiling
  | streamEnd
deriving DecidableEq, Repr

/-- The loop variables of `run_fast_6agent_analysis`'s `async for`
(`agent_outputs`, used only for the returned dict's `agent_outputs`
key, is not tracked). -/
structure LoopState where
  message_count : Nat := 0
  agent_responses : List String := []
  final_report : String := ""
  recommendation : Option String := none
  confidence : Option Nat := none
deriving DecidableEq, Repr

/-- The sentinel phrase of the termination condition and of the break
test. -/
def sentinel : String := "FINAL_ANALYSIS_COMPLETE"

/-- One iteration body (without the break decisions): count the
message; if it has content and counts, append its source; if it is from
ReportAgent, take it as the final report and run both extraction
steps. -/
def consumeStep (st : LoopState) (m : AgentMessage) : LoopState :=
  let st1 := { st with message_count := st.message_count + 1 }
  if countedResponder m then
    let st2 := { st1 with agent_responses := st1.agent_responses ++ [m.source] }
    if m.source = "ReportAgent" then
      { st2 with final_report := m.content
                 recommendation := stepExtractRec st2.recommendation m.content
                 confidence := stepExtractConf st2.confidence m.content }
    else st2
  else st1

/-- The number of distinct speakers collected
(`len(set(agent_responses))`). -/
def distinctCount (l : List String) : Nat := l.toFinset.card

/-- The consumption loop: for each streamed message, run the body, then
break when 6 distinct responders have spoken or the sentinel appears in
a content-bearing message (checked only inside the `hasattr` branch),
then break when 30 raw messages have been consumed. -/
def consumeLoop (st : LoopState) : List AgentMessage → LoopState × StopReason
  | [] => (st, .streamEnd)
  | m :: rest =>
    let st' := consumeStep st m
    if m.hasContent
        && (decide (6 ≤ distinctCount st'.agent_responses) || pyIn sentinel m.content) then
      (st', .quotaOrSentinel)
    else if 30 ≤ st'.message_count then (st', .ceiling)
    else consumeLoop st' rest

/-! ### Post-loop synthesis -/

/-- The debug markers stripped from the final report. -/
def debug_markers : List String :=
  ["FINAL_ANALYSIS_COMPLETE", "RISK_ANALYSIS_COMPLETE", "MARKET_DATA_COMPLETE",
   "QUANTITATIVE_ANALYSIS_COMPLETE", "STRATEGY_DEVELOPMENT_COMPLETE",
   "DATA_ANALYSIS_COMPLETE"]

/-- Remove every occurrence of `pat` (fuelled by the input length; each
step consumes at least one character). -/
def replaceAllAux (pat : List Char) : Nat → List Char → List Char
  | 0, s => s
  | _ + 1, [] => []
  | fuel + 1, c :: rest =>
    if !pat.isEmpty && pat.isPrefixOf (c :: rest) then
      replaceAllAux pat fuel ((c :: rest).drop pat.length)
    else c :: replaceAllAux pat fuel rest

/-- Python `s.replace(pat, "")`. -/
def pyReplaceEmpty (s pat : String) : String :=
  (replaceAllAux pat.data s.data.length s.data).asString

/-- `if final_report:` then each marker is replaced away and the result
stripped, marker by marker. -/
def strip_markers (report : String) : String :=
  if report = "" then report
  else debug_markers.foldl (fun r mk => pyStrip (pyReplaceEmpty r mk)) report

/-- The post-loop recommendation default: keep an extracted value
(extracted values are never empty, matching `if not recommendation`);
otherwise infer from the report text, else `'HOLD'`. -/
def default_recommendation (recOpt : Option String) (final_report : String) : String :=
  match recOpt with
  | some r => r
  | none =>
    if final_report = "" then "HOLD"
    else
      let ru := pyUpper final_report
      if pyIn "STRONG BUY" ru || pyIn "RECOMMEND BUYING" ru then "BUY"
      else if pyIn "AVOID" ru || pyIn "DO NOT BUY" ru then "AVOID"
      else "HOLD"

/-- A digit run (maximal) followed immediately by `/10` or `%`, scanned
left to right within the current line; a failed run is skipped whole
(the lazy gap of `.*?` would re-enter the run one character at a time
and fail identically).  Fuelled by input length. -/
def confFallbackScan : Nat → List Char → Option Nat
  | 0, _ => none
  | _ + 1, [] => none
  | fuel + 1, c :: rest =>
    if c = '\n' then none
    else if isDigit09 c then
      let ds := (c :: rest).takeWhile isDigit09
      match (c :: rest).dropWhile isDigit09 with
      | '/' :: '1' :: '0' :: _ => some (digitsToNat ds)
      | '%' :: _ => some (digitsToNat ds)
      | t => confFallbackScan fuel t
    else confFallbackScan fuel rest

/-- `re.search(r'(?:confidence|CONFIDENCE).*?(\d+)(?:/10|%)',
final_report, re.IGNORECASE)`: the first `confidence` occurrence
followed, on the same line (`.` does not cross newlines), by a digit
run ending in `/10` or `%`; returns that run's value. -/
def confReportFallback : List Char → Option Nat
  | [] => none
  | s@(_ :: rest) =>
    match dropPrefixCI "confidence".data s with
    | some t =>
      match confFallbackScan t.length t with
      | some v => some v
      | none => confReportFallback rest
    | none => confReportFallback rest

/-- The post-loop confidence default (`if confidence is None`): search
the report for a confidence number (`X/10` scales by 10 only when
`X <= 10`), else 70 with a report, else 50. -/
def default_confidence (confOpt : Option Nat) (final_report : String) : Nat :=
  match confOpt with
  | some c => c
  | none =>
    if final_report = "" then 50
    else
      match confReportFallback final_report.data with
      | some val => if val ≤ 10 then val * 10 else val
      | none => 70

/-- The structured result dict of `run_fast_6agent_analysis` (the keys
the claims are about; `execution_plan` is four constant strings,
`agent_outputs`/`messages`/`timestamp` are bookkeeping). -/
structure AnalysisResult where
  symbol : String
  recommendation : String
  confidence : Nat
  summary : String
  final_report : String
  stop_reason : StopReason
deriving DecidableEq, Repr

/-- `run_fast_6agent_analysis(stock_symbol, ...)` consuming the given
message stream (the stream itself - the autogen team's output - is the
oracle): the consumption loop, marker stripping, then the defaults.
Total: hitting the message ceiling is an ordinary break, not an
exception. -/
def run_fast_6agent_analysis (stock_symbol : String)
    (stream : List AgentMessage) : AnalysisResult :=
  let out := consumeLoop {} stream
  let report := strip_markers out.1.final_report
  let recommendation := default_recommendation out.1.recommendation report
  let confidence := default_confidence out.1.confidence report
  { symbol := stock_symbol
    recommendation := recommendation
    confidence := confidence
    summary := if report = "" then "Analysis completed" else ⟨report.data.take 500⟩
    final_report := report
    stop_reason := out.2 }

/-- The extractor's composite decision for a run whose ReportAgent
message text is `content`: the in-loop extraction, then the post-loop
defaults applied to the marker-stripped report. -/
def decisionOf (content : String) : String × Nat :=
  (default_recommendation (extract_recommendation content) (strip_markers content),
   default_confidence (extract_confidence content) (strip_markers content))

/-- The fixed recommendation vocabulary named by the specification
(both the underscore and space spellings are admitted). -/
def fixed_recommendations : List String :=
  ["STRONG_BUY", "STRONG BUY", "BUY", "HOLD", "WAIT", "AVOID", "SELL",
   "STRONG_SELL", "STRONG SELL"]

/-- The sources appended to `agent_responses` while consuming a message
list: the counted (non-user, non-tool, content-bearing) messages'
sources in order. -/
def counted_sources (l : List AgentMessage) : List String :=
  (l.filter countedResponder).map AgentMessage.source

end MarketingAgents

namespace MarketingAgents

/-- C1: for every combination of the two booleans, the routing functions
implement the fixed graph (portfolio first when `needs_portfolio`; market
when market-only; straight to validator when neither; after portfolio,
market iff `needs_market`; market always flows to validator), every node
type executes at most once, and the workflow terminates within 4 node
executions. -/
theorem routing_graph_correct :
    ∀ p m : Bool,
      workflowTrace p m = some (claimedRoute p m) ∧
      (claimedRoute p m).Nodup ∧
      (claimedRoute p m).length ≤ 4 := by
  decide

/-- A list is a `isPrefixOf`-prefix of itself followed by anything. -/
lemma isPrefixOf_append_self (l t : List Char) : l.isPrefixOf (l ++ t) = true := by
  induction l with
  | nil => simp [List.isPrefixOf]
  | cons c rest ih => simp [List.isPrefixOf, ih]

/-- `pyStartsWith` holds of any appended extension. -/
lemma pyStartsWith_append (s t : String) : pyStartsWith s (s ++ t) = true := by
  have h : (s ++ t).data = s.data ++ t.data := by
    cases s; cases t; rfl
  simp [pyStartsWith, h, isPrefixOf_append_self]

/-- `pyStartsWith` is reflexive. -/
lemma pyStartsWith_self (s : String) : pyStartsWith s s = true := by
  have := pyStartsWith_append s ""
  simpa using this

/-- C10: every state returned by the validator node satisfies
`validated = not needs_clarification`: the ambiguous branch sets
`(validated, needs_clarification) = (false, true)` and every other
branch sets `(true, false)`. -/
theorem validator_flags_invariant (s : WState) :
    (validator_node s).validated = !(validator_node s).needs_clarification := by
  simp only [validator_node]
  split
  · rfl
  · split
    · rfl
    · split
      · rfl
      · split
        · rfl
        · rfl

/-- C7 (amended): the validator either leaves the response text intact
or appends to it - except in the insufficient-data branch, where the
response is replaced by the insufficiency message (the incoming
ambiguity check having passed). -/
theorem validator_appends_or_replaces_on_insufficiency (s : WState) :
    pyStartsWith s.response (validator_node s).response = true ∨
      ((detect_ambiguity s.query s.conversation_history).1 = false ∧
        (check_data_sufficiency s.query s.portfolio_data s.market_data).1 = false ∧
        (validator_node s).response =
          (check_data_sufficiency s.query s.portfolio_data s.market_data).2) := by
  simp only [validator_node]
  split
  · exact Or.inl (pyStartsWith_self _)
  · next hamb =>
    split
    · next hsuff =>
      refine Or.inr ⟨?_, ?_, rfl⟩
      · simpa using hamb
      · simpa using hsuff
    · split
      · exact Or.inl (pyStartsWith_append _ _)
      · split
        · exact Or.inl (pyStartsWith_append _ _)
        · exact Or.inl (pyStartsWith_self _)

/-- C7 (counterexample): a state on which the validator's output
response neither equals the incoming response nor extends it - the
query names a ticker absent from all data, so the insufficient-data
branch replaces the response outright. -/
theorem validator_rewrites_response_counterexample :
    ((validator_node { query := "Tell me about ZZZZ"
                       response := "The answer is 42." : WState }).response ≠
        "The answer is 42.") ∧
      pyStartsWith "The answer is 42."
        (validator_node { query := "Tell me about ZZZZ"
                          response := "The answer is 42." : WState }).response = false := by
  constructor
  · decide
  · decide

/-- When the ambiguity detector fires, the validator node returns the
clarification flags regardless of the rest of the state. -/
lemma validator_node_of_ambiguous (s : WState) (msg : String)
    (h : detect_ambiguity s.query s.conversation_history = (true, msg)) :
    (validator_node s).needs_clarification = true ∧
      (validator_node s).validated = false ∧
      (validator_node s).clarification_message = some msg ∧
      (validator_node s).response = s.response := by
  simp [validator_node, h]

/-- The planner node does not touch the query or the conversation
history. -/
lemma planner_node_preserves (p : String) (s : WState) :
    (planner_node p s).query = s.query ∧
      (planner_node p s).conversation_history = s.conversation_history := by
  exact ⟨rfl, rfl⟩

/-- The portfolio node does not touch the query or the conversation
history. -/
lemma portfolio_node_preserves (d : PData) (t : String) (s : WState) :
    (portfolio_node d t s).query = s.query ∧
      (portfolio_node d t s).conversation_history = s.conversation_history :=
  ⟨rfl, rfl⟩

/-- The market node does not touch the query or the conversation
history. -/
lemma market_node_preserves (d : MData) (t : String) (s : WState) :
    (market_node d t s).query = s.query ∧
      (market_node d t s).conversation_history = s.conversation_history :=
  ⟨rfl, rfl⟩

/-- C4 (amended): for every query the ambiguity detector flags, the
workflow's final state carries `needs_clarification = true` with the
clarification message and `validated = false` - but the check runs in
the terminal validator node, after any specialist nodes the planner's
flags routed to have already executed. -/
theorem ambiguous_query_returns_clarification (o : Oracles) (s0 : WState) (msg : String)
    (h : detect_ambiguity s0.query s0.conversation_history = (true, msg)) :
    (exec_workflow o s0).1.needs_clarification = true ∧
      (exec_workflow o s0).1.validated = false ∧
      (exec_workflow o s0).1.clarification_message = some msg := by
  unfold exec_workflow
  have hq1 : (planner_node o.plannerText s0).query = s0.query := rfl
  have hh1 : (planner_node o.plannerText s0).conversation_history =
      s0.conversation_history := rfl
  cases hr : route_after_planner (planner_node o.plannerText s0).needs_portfolio
      (planner_node o.plannerText s0).needs_market with
  | planner =>
    simp only [hr]
    have := validator_node_of_ambiguous (planner_node o.plannerText s0) msg
      (by rw [hq1, hh1]; exact h)
    exact ⟨this.1, this.2.1, this.2.2.1⟩
  | portfolio_agent =>
    simp only [hr]
    cases hr2 : route_after_portfolio
        (portfolio_node o.portfolioData o.portfolioText
          (planner_node o.plannerText s0)).needs_market with
    | market_agent =>
      simp only
      have := validator_node_of_ambiguous
        (market_node o.marketData o.marketText
          (portfolio_node o.portfolioData o.portfolioText
            (planner_node o.plannerText s0))) msg (by exact h)
      exact ⟨this.1, this.2.1, this.2.2.1⟩
    | planner =>
      simp only
      have := validator_node_of_ambiguous
        (portfolio_node o.portfolioData o.portfolioText
          (planner_node o.plannerText s0)) msg (by exact h)
      exact ⟨this.1, this.2.1, this.2.2.1⟩
    | portfolio_agent =>
      simp only
      have := validator_node_of_ambiguous
        (portfolio_node o.portfolioData o.portfolioText
          (planner_node o.plannerText s0)) msg (by exact h)
      exact ⟨this.1, this.2.1, this.2.2.1⟩
    | validator =>
      simp only
      have := validator_node_of_ambiguous
        (portfolio_node o.portfolioData o.portfolioText
          (planner_node o.plannerText s0)) msg (by exact h)
      exact ⟨this.1, this.2.1, this.2.2.1⟩
  | market_agent =>
    simp only [hr]
    have := validator_node_of_ambiguous
      (market_node o.marketData o.marketText (planner_node o.plannerText s0)) msg
      (by exact h)
    exact ⟨this.1, this.2.1, this.2.2.1⟩
  | validator =>
    simp only [hr]
    have := validator_node_of_ambiguous (planner_node o.plannerText s0) msg
      (by exact h)
    exact ⟨this.1, this.2.1, this.2.2.1⟩

/-- C4 (witness): the Scenario-B query "Should I buy it?" with an empty
history is flagged by the pronoun check, and the workflow's final state
carries the clarification. -/
theorem ambiguous_query_returns_clarification_witness :
    (exec_workflow {} (initial_state "Should I buy it?" "CLT-001")).1.needs_clarification
        = true ∧
      (exec_workflow {} (initial_state "Should I buy it?" "CLT-001")).1.validated = false := by
  have h := ambiguous_query_returns_clarification {}
    (initial_state "Should I buy it?" "CLT-001")
    "Which specific stock are you referring to when you say 'it'?" (by decide)
  exact ⟨h.1, h.2.1⟩

/-- C4 (counterexample): on that same flagged query the planner's
fallback sets `needs_market` (the query contains "should i buy"), so
the market specialist node executes before the validator flags the
ambiguity - refuting "no specialist agent node executes for that
request". -/
theorem specialist_runs_despite_ambiguous_query :
    Node.market_agent ∈ (exec_workflow {} (initial_state "Should I buy it?" "CLT-001")).2 ∧
      (exec_workflow {} (initial_state "Should I buy it?" "CLT-001")).1.needs_clarification
        = true := by
  constructor
  · decide
  · decide

/-- C8: the grounding check flags every uppercase 2-5 letter token of
the response that is absent from the portfolio symbols, the market-data
keys and the common-word denylist; and the denylisted word "ETF" is
never flagged. -/
theorem grounding_check_flags_unknown_tickers
    (response : String) (pd : PData) (md : MData) (tok : String)
    (h1 : tok ∈ mentionedTickers response)
    (h2 : tok ∉ portfolioTickers pd)
    (h3 : tok ∉ marketKeys md)
    (h4 : tok ∉ common_words) :
    tok ∈ (enhanced_fact_check response pd md).unknown_tickers ∧
      (enhanced_fact_check response pd md).has_hallucinations = true ∧
      ∀ (r : String) (pd' : PData) (md' : MData),
        "ETF" ∉ (enhanced_fact_check r pd' md').unknown_tickers := by
  have hknown : tok ∉ portfolioTickers pd ++ marketKeys md := by
    intro hmem
    rcases List.mem_append.mp hmem with hmem | hmem
    · exact h2 hmem
    · exact h3 hmem
  have hmemu : tok ∈ (enhanced_fact_check response pd md).unknown_tickers := by
    simp only [enhanced_fact_check, List.mem_filter]
    refine ⟨h1, ?_⟩
    simp [hknown, h4]
  refine ⟨hmemu, ?_, ?_⟩
  · simp only [enhanced_fact_check]
    simp
    exact ⟨tok, h1, h2, h3, h4⟩
  · intro r pd' md' hETF
    simp only [enhanced_fact_check, List.mem_filter] at hETF
    have : ("ETF" : String) ∉ common_words := by
      have h := hETF.2
      simp only [Bool.and_eq_true, decide_eq_true_eq] at h
      exact h.2
    exact this (by decide)

/-- C8 (witness): in the response "Consider QQQQ and ETF exposure."
with no portfolio and no market data, the unknown token QQQQ is
flagged and the check reports hallucinations. -/
theorem grounding_check_flags_unknown_tickers_witness :
    "QQQQ" ∈ (enhanced_fact_check "Consider QQQQ and ETF exposure." .nil []).unknown_tickers ∧
      (enhanced_fact_check "Consider QQQQ and ETF exposure." .nil []).has_hallucinations
        = true := by
  have h := grounding_check_flags_unknown_tickers
    "Consider QQQQ and ETF exposure." .nil [] "QQQQ"
    (by decide) (by decide) (by decide) (by decide)
  exact ⟨h.1, h.2.1⟩

/-- C9 (amended): the batch quote lookup has an entry for every
requested ticker and the entry depends only on that ticker's own fetch
outcome; a failed fetch yields the explicit error marker (an `error`
field with a `None` price) only when the ticker is outside the
hard-coded demo table (and is not "CASH") - a failed fetch of a
demo-table ticker is silently answered with the table's demo data,
carrying no error field; a successful fetch yields the fetched price
and no error. -/
theorem batch_quotes_tolerate_partial_failure
    (tickers : List String) (o : String → FetchOutcome) (t : String)
    (ht : t ∈ tickers) :
    get_multiple_stock_prices tickers o t = some (fetch_ticker_price t o) ∧
      get_multiple_stock_prices tickers o t = get_multiple_stock_prices [t] o t ∧
      (∀ msg, o t = .exn msg → demoLookup t = none → ¬ pyUpper t = "CASH" →
        (fetch_ticker_price t o).error.isSome = true ∧
          (fetch_ticker_price t o).current_price = none) ∧
      (∀ closes ytdCloses info c, o t = .hist closes ytdCloses info →
        closes.getLast? = some c → ¬ pyUpper t = "CASH" →
        (fetch_ticker_price t o).current_price = some c ∧
          (fetch_ticker_price t o).error = none) ∧
      (∀ msg price changePct nm, o t = .exn msg →
        demoLookup t = some (price, changePct, nm) → ¬ pyUpper t = "CASH" →
        (fetch_ticker_price t o).error = none ∧
          (fetch_ticker_price t o).current_price = some price ∧
          (fetch_ticker_price t o).data_source = some "demo") := by
  refine ⟨?_, ?_, ?_, ?_, ?_⟩
  · simp [get_multiple_stock_prices, ht]
  · simp [get_multiple_stock_prices, ht]
  · intro msg hexn hdemo hcash
    simp [fetch_ticker_price, hcash, get_stock_price, hexn, fallbackQuote, hdemo,
      errorQuote]
  · intro closes ytdCloses info c hhist hlast hcash
    simp [fetch_ticker_price, hcash, get_stock_price, hhist, hlast]
  · intro msg price changePct nm hexn hdemo hcash
    simp [fetch_ticker_price, hcash, get_stock_price, hexn, fallbackQuote, hdemo,
      demoQuote]

/-- C9 (counterexample): a failed fetch of the demo-table ticker AAPL
does NOT produce an error marker: the batch entry exists but carries
`error = None`, a present (demo) price and `data_source = "demo"` -
refuting "when fetching one ticker fails, that ticker's entry carries
an explicit error marker (an 'error' field with current_price set to
None)". -/
theorem demo_ticker_failure_lacks_error_marker :
    (get_multiple_stock_prices ["AAPL", "ZZZZ"]
        (fun _ => .exn "network down") "AAPL"
      = some (fetch_ticker_price "AAPL" (fun _ => .exn "network down"))) ∧
      (fetch_ticker_price "AAPL" (fun _ => .exn "network down")).error = none ∧
      (fetch_ticker_price "AAPL" (fun _ => .exn "network down")).current_price.isSome
        = true ∧
      (fetch_ticker_price "AAPL" (fun _ => .exn "network down")).data_source
        = some "demo" := by
  refine ⟨rfl, rfl, rfl, rfl⟩

/-- C9 (witness): a 5-ticker batch where the fetches of ZZZZ and MSFT
raise: the ZZZZ entry (not in the demo table) carries the error marker
with a `None` price, the MSFT entry (in the demo table) carries demo
data with no error, and AAPL's entry holds its fetched price with no
error. -/
theorem batch_quotes_tolerate_partial_failure_witness :
    (get_multiple_stock_prices ["AAPL", "MSFT", "GOOG", "ZZZZ", "NVDA"]
        (fun t => if t = "ZZZZ" || t = "MSFT" then .exn "boom"
          else .hist [10, 12] [8] none) "ZZZZ"
      = some (fetch_ticker_price "ZZZZ"
          (fun t => if t = "ZZZZ" || t = "MSFT" then .exn "boom"
            else .hist [10, 12] [8] none))) ∧
      ((fetch_ticker_price "ZZZZ"
          (fun t => if t = "ZZZZ" || t = "MSFT" then .exn "boom"
            else .hist [10, 12] [8] none)).error.isSome = true) ∧
      ((fetch_ticker_price "ZZZZ"
          (fun t => if t = "ZZZZ" || t = "MSFT" then .exn "boom"
            else .hist [10, 12] [8] none)).current_price = none) ∧
      ((fetch_ticker_price "MSFT"
          (fun t => if t = "ZZZZ" || t = "MSFT" then .exn "boom"
            else .hist [10, 12] [8] none)).error = none) ∧
      ((fetch_ticker_price "MSFT"
          (fun t => if t = "ZZZZ" || t = "MSFT" then .exn "boom"
            else .hist [10, 12] [8] none)).data_source = some "demo") ∧
      ((fetch_ticker_price "AAPL"
          (fun t => if t = "ZZZZ" || t = "MSFT" then .exn "boom"
            else .hist [10, 12] [8] none)).current_price = some 12) ∧
      ((fetch_ticker_price "AAPL"
          (fun t => if t = "ZZZZ" || t = "MSFT" then .exn "boom"
            else .hist [10, 12] [8] none)).error = none) := by
  have hz := batch_quotes_tolerate_partial_failure
    ["AAPL", "MSFT", "GOOG", "ZZZZ", "NVDA"]
    (fun t => if t = "ZZZZ" || t = "MSFT" then .exn "boom" else .hist [10, 12] [8] none)
    "ZZZZ" (by decide)
  have hm := batch_quotes_tolerate_partial_failure
    ["AAPL", "MSFT", "GOOG", "ZZZZ", "NVDA"]
    (fun t => if t = "ZZZZ" || t = "MSFT" then .exn "boom" else .hist [10, 12] [8] none)
    "MSFT" (by decide)
  have ha := batch_quotes_tolerate_partial_failure
    ["AAPL", "MSFT", "GOOG", "ZZZZ", "NVDA"]
    (fun t => if t = "ZZZZ" || t = "MSFT" then .exn "boom" else .hist [10, 12] [8] none)
    "AAPL" (by decide)
  have hz3 := hz.2.2.1 "boom" (by decide) (by decide) (by decide)
  have hm5 := hm.2.2.2.2 "boom" (37891/100) (85/100) "Microsoft Corporation"
    (by rfl) (by rfl) (by decide)
  have ha4 := ha.2.2.2.1 [10, 12] [8] none 12 (by simp) (by decide) (by decide)
  exact ⟨hz.1, hz3.1, hz3.2, hm5.1, hm5.2.2, ha4.1, ha4.2⟩

/-- Every run produced by `charRuns` is non-empty. -/
lemma charRuns_ne_nil (keep : Char → Bool) :
    ∀ (cs acc r : List Char), r ∈ charRuns keep acc cs → r ≠ [] := by
  intro cs
  induction cs with
  | nil =>
    intro acc r hr
    by_cases ha : acc.isEmpty = true
    · simp only [charRuns, if_pos ha] at hr
      simp at hr
    · simp only [charRuns, if_neg ha] at hr
      simp only [List.mem_singleton] at hr
      subst hr
      simp only [ne_eq, List.reverse_eq_nil_iff]
      intro hnil
      rw [hnil] at ha
      exact ha rfl
  | cons c rest ih =>
    intro acc r hr
    by_cases hk : keep c = true
    · simp only [charRuns, if_pos hk] at hr
      exact ih _ r hr
    · by_cases ha : acc.isEmpty = true
      · simp only [charRuns, if_neg hk, if_pos ha] at hr
        exact ih _ r hr
      · simp only [charRuns, if_neg hk, if_neg ha] at hr
        rcases List.mem_cons.mp hr with hr | hr
        · subst hr
          simp only [ne_eq, List.reverse_eq_nil_iff]
          intro hnil
          rw [hnil] at ha
          exact ha rfl
        · exact ih _ r hr

/-- A string built from a non-empty character list is non-empty. -/
lemma mk_ne_empty (l : List Char) (h : l ≠ []) : (⟨l⟩ : String) ≠ "" := by
  intro hc
  exact h (congrArg String.data hc)

/-- Every word `str.split()` yields is non-empty. -/
lemma pySplit_mem_ne_empty (s : String) (w : String) (hw : w ∈ pySplit s) :
    w ≠ "" := by
  simp only [pySplit, List.mem_map] at hw
  obtain ⟨r, hr, hrw⟩ := hw
  have := charRuns_ne_nil (fun c => !isPyWs c) s.data [] r hr
  rw [← hrw]
  exact mk_ne_empty r this

/-- `str.upper()` of a non-empty string is non-empty. -/
lemma pyUpper_ne_empty (s : String) (h : s ≠ "") : pyUpper s ≠ "" := by
  apply mk_ne_empty
  intro hc
  apply h
  cases s with
  | mk data =>
    cases data with
    | nil => rfl
    | cons c rest => simp at hc

/-- The recommendation-line classifier never yields the empty string. -/
lemma classify_recommendation_ne_empty (t : String) :
    classify_recommendation t ≠ "" := by
  cases hsplit : pySplit t with
  | nil =>
    simp only [classify_recommendation, hsplit]
    repeat' split
    all_goals decide
  | cons w ws =>
    have hw : w ≠ "" :=
      pySplit_mem_ne_empty t w (by rw [hsplit]; exact List.mem_cons_self w ws)
    simp only [classify_recommendation, hsplit]
    repeat' split
    all_goals first
      | decide
      | exact pyUpper_ne_empty w hw

/-- Every recommendation the in-loop extraction produces is non-empty
(so Python's `if not recommendation` coincides with the `is None`
test). -/
lemma stepExtractRec_ne_empty (old : Option String)
    (hold : ∀ r, old = some r → r ≠ "") (content : String) (r : String)
    (h : stepExtractRec old content = some r) : r ≠ "" := by
  unfold stepExtractRec at h
  cases hfind : findRecommendationText content.data with
  | some cap =>
    simp only [hfind] at h
    injection h with h
    rw [← h]
    exact classify_recommendation_ne_empty _
  | none =>
    simp only [hfind] at h
    cases hold2 : old with
    | some r0 =>
      simp only [hold2] at h
      injection h with h
      rw [← h]
      exact hold r0 hold2
    | none =>
      simp only [hold2] at h
      cases hans : answerYesNo content.data with
      | some b =>
        cases b
        · simp only [hans] at h
          injection h with h
          rw [← h]
          decide
        · simp only [hans] at h
          injection h with h
          rw [← h]
          decide
      | none =>
        simp only [hans] at h
        split at h
        · injection h with h
          rw [← h]
          decide
        · split at h
          · injection h with h
            rw [← h]
            decide
          · split at h
            · injection h with h
              rw [← h]
              decide
            · exact absurd h (by simp)

/-- The post-loop default recommendation is never empty. -/
lemma default_recommendation_ne_empty (recOpt : Option String) (report : String)
    (hopt : ∀ r, recOpt = some r → r ≠ "") :
    default_recommendation recOpt report ≠ "" := by
  cases hopt2 : recOpt with
  | some r =>
    simp only [default_recommendation, hopt2]
    exact hopt r hopt2
  | none =>
    simp only [default_recommendation, hopt2]
    repeat' split
    all_goals decide

/-- C2 (amended): for every report text the extractor yields a defined
decision - a non-empty recommendation and a numeric confidence - with
the stated normalizations (anchored `X/10` scales to `X*10`; anchored
`X%` stays `X`) and the neutral defaults (`HOLD`; 70 with a report, 50
without) when no pattern matches.  (The recommendation is not always
one of the fixed values and the confidence can leave `[0,100]`; see the
counterexample.) -/
theorem extractor_total_and_normalizing (content : String) :
    (decisionOf content).1 ≠ "" ∧
      (∀ x, confLevelSlash10 content.data = some x →
        extract_confidence content = some (x * 10)) ∧
      (confLevelSlash10 content.data = none →
        ∀ x, confPercent content.data = some x →
          extract_confidence content = some x) ∧
      (extract_recommendation content = none →
        pyIn "STRONG BUY" (pyUpper (strip_markers content)) = false →
        pyIn "RECOMMEND BUYING" (pyUpper (strip_markers content)) = false →
        pyIn "AVOID" (pyUpper (strip_markers content)) = false →
        pyIn "DO NOT BUY" (pyUpper (strip_markers content)) = false →
        (decisionOf content).1 = "HOLD") ∧
      (extract_confidence content = none →
        confReportFallback (strip_markers content).data = none →
        ((decisionOf content).2 = 70 ∨ (decisionOf content).2 = 50)) := by
  refine ⟨?_, ?_, ?_, ?_, ?_⟩
  · exact default_recommendation_ne_empty _ _
      (fun r h => stepExtractRec_ne_empty none (by simp) content r h)
  · intro x h
    simp only [extract_confidence, stepExtractConf, h]
  · intro h x h2
    simp only [extract_confidence, stepExtractConf, h, h2]
  · intro h h1 h2 h3 h4
    simp only [decisionOf, default_recommendation, h]
    by_cases hrep : strip_markers content = ""
    · simp [hrep]
    · simp [hrep, h1, h2, h3, h4]
  · intro h h2
    simp only [decisionOf, default_confidence, h]
    by_cases hrep : strip_markers content = ""
    · simp [hrep]
    · simp [hrep, h2]

/-- C2 (witness): on the report "CONFIDENCE LEVEL: 5/10" the anchored
confidence normalizes to 50 and, no recommendation pattern matching,
the neutral default HOLD is used. -/
theorem extractor_total_and_normalizing_witness :
    extract_confidence "CONFIDENCE LEVEL: 5/10" = some 50 ∧
      (decisionOf "CONFIDENCE LEVEL: 5/10").1 = "HOLD" := by
  have h := extractor_total_and_normalizing "CONFIDENCE LEVEL: 5/10"
  exact ⟨h.2.1 5 (by decide), h.2.2.2.1 (by decide) (by decide) (by decide)
    (by decide) (by decide)⟩

/-- C2 (counterexample): the report
"RECOMMENDATION: MAYBE\nCONFIDENCE LEVEL: 15/10" extracts the
recommendation "MAYBE" - not one of the fixed recommendation values -
with confidence 150, outside [0,100]: the anchored line's unrecognized
first word is passed through and `X/10` scales past 100 when X > 10. -/
theorem extractor_fixed_set_counterexample :
    decisionOf "RECOMMENDATION: MAYBE\nCONFIDENCE LEVEL: 15/10" = ("MAYBE", 150) ∧
      "MAYBE" ∉ fixed_recommendations ∧
      ¬ (150 : Nat) ≤ 100 := by
  refine ⟨?_, by decide, by decide⟩
  decide

/-- C3 (code bug, evaluation): the report "Analysts say DON'T BUY now."
contains the negative phrase "DON'T BUY" but has no anchored
`RECOMMENDATION:` line, so the last-resort keyword layer's `\bBUY\b`
search classifies it as BUY - the negative-first ordering is missing at
that fallback layer. -/
theorem negative_phrase_fallback_extracts_buy :
    pyIn "DON'T BUY" (pyUpper "Analysts say DON'T BUY now.") = true ∧
      decisionOf "Analysts say DON'T BUY now." = ("BUY", 70) := by
  refine ⟨by decide, ?_⟩
  decide

/-- One loop iteration increments the raw message count by exactly 1. -/
lemma consumeStep_message_count (st : LoopState) (m : AgentMessage) :
    (consumeStep st m).message_count = st.message_count + 1 := by
  simp only [consumeStep]
  repeat' split
  all_goals rfl

/-- One loop iteration appends the source exactly when the message is a
counted responder. -/
lemma consumeStep_responses (st : LoopState) (m : AgentMessage) :
    (consumeStep st m).agent_responses =
      st.agent_responses ++ (if countedResponder m then [m.source] else []) := by
  simp only [consumeStep]
  by_cases hc : countedResponder m
  · simp only [if_pos hc]
    split
    · rfl
    · rfl
  · simp [if_neg hc]

/-- `counted_sources` over a cons. -/
lemma counted_sources_cons (m : AgentMessage) (l : List AgentMessage) :
    counted_sources (m :: l) =
      (if countedResponder m then [m.source] else []) ++ counted_sources l := by
  by_cases hc : countedResponder m
  · simp [counted_sources, List.filter_cons, hc]
  · simp [counted_sources, List.filter_cons, hc]

/-- Appending `t` raises the distinct-speaker count by at most
`t.length`. -/
lemma distinctCount_append_le (l t : List String) :
    distinctCount (l ++ t) ≤ distinctCount l + t.length := by
  simp only [distinctCount, List.toFinset_append]
  calc (l.toFinset ∪ t.toFinset).card
      ≤ l.toFinset.card + t.toFinset.card := Finset.card_union_le _ _
    _ ≤ l.toFinset.card + t.length :=
        Nat.add_le_add_left (List.toFinset_card_le t) _

/-- The consumption loop, started below quota with no sentinel in the
stream, stops with the quota break after exactly `j` further raw
messages, where `j` is the first prefix length whose counted sources
reach 6 distinct speakers (provided the ceiling is not hit first). -/
lemma consumeLoop_reaches_quota :
    ∀ (msgs : List AgentMessage) (st : LoopState) (j : Nat),
      (∀ m ∈ msgs, pyIn sentinel m.content = false) →
      distinctCount st.agent_responses < 6 →
      st.message_count + j ≤ 30 →
      6 ≤ distinctCount (st.agent_responses ++ counted_sources (msgs.take j)) →
      (∀ i < j, distinctCount (st.agent_responses ++ counted_sources (msgs.take i)) < 6) →
      (consumeLoop st msgs).2 = .quotaOrSentinel ∧
        (consumeLoop st msgs).1.message_count = st.message_count + j ∧
        (consumeLoop st msgs).1.agent_responses =
          st.agent_responses ++ counted_sources (msgs.take j) := by
  intro msgs
  induction msgs with
  | nil =>
    intro st j _ hlt _ hquota _
    exfalso
    simp only [List.take_nil] at hquota
    simp only [counted_sources, List.filter_nil, List.map_nil, List.append_nil] at hquota
    omega
  | cons m rest ih =>
    intro st j hsent hlt hbound hquota hmin
    rcases j with _ | j'
    · exfalso
      simp only [List.take_zero] at hquota
      simp only [counted_sources, List.filter_nil, List.map_nil, List.append_nil] at hquota
      omega
    · have hsentm : pyIn sentinel m.content = false := hsent m (List.mem_cons_self m rest)
      have hresp := consumeStep_responses st m
      have hmc := consumeStep_message_count st m
      have hcs : counted_sources ((m :: rest).take (j' + 1)) =
          (if countedResponder m then [m.source] else []) ++ counted_sources (rest.take j') := by
        rw [show (m :: rest).take (j' + 1) = m :: rest.take j' from rfl,
          counted_sources_cons]
      rcases j' with _ | j''
      · -- the quota is reached on this very message
        have h0 : counted_sources (rest.take 0) = [] := by
          simp [counted_sources]
        have hq : 6 ≤ distinctCount (consumeStep st m).agent_responses := by
          rw [hresp]
          rw [hcs, h0, List.append_nil] at hquota
          exact hquota
        have hhc : m.hasContent = true := by
          by_contra hnc
          have hcr : countedResponder m = false := by
            simp [countedResponder, Bool.eq_false_iff.mpr hnc]
          rw [hresp, hcr] at hq
          simp at hq
          omega
        simp only [consumeLoop]
        rw [if_pos (by simp [hhc, hq])]
        refine ⟨rfl, ?_, ?_⟩
        · simp [hmc]
        · rw [hresp, hcs, h0]
          simp
      · -- below quota at this message: continue
        have hlt1 : distinctCount (consumeStep st m).agent_responses < 6 := by
          have h0 : counted_sources (rest.take 0) = [] := by
            simp [counted_sources]
          have h1 := hmin 1 (by omega)
          rw [show (m :: rest).take 1 = m :: rest.take 0 from rfl,
            counted_sources_cons, h0, List.append_nil] at h1
          rw [hresp]
          exact h1
        have hcond : (m.hasContent
            && (decide (6 ≤ distinctCount (consumeStep st m).agent_responses)
                || pyIn sentinel m.content)) = false := by
          simp [hsentm, Nat.not_le.mpr hlt1]
        have hceil : ¬ 30 ≤ (consumeStep st m).message_count := by
          rw [hmc]
          omega
        simp only [consumeLoop]
        rw [if_neg (by simp [hcond]), if_neg hceil]
        have hih := ih (consumeStep st m) (j'' + 1)
          (fun x hx => hsent x (List.mem_cons_of_mem m hx))
          hlt1
          (by rw [hmc]; omega)
          (by have h2 := hquota
              rw [hcs] at h2
              rw [hresp, List.append_assoc]
              exact h2)
          (by intro i hi
              have h3 := hmin (i + 1) (by omega)
              rw [show (m :: rest).take (i + 1) = m :: rest.take i from rfl,
                counted_sources_cons] at h3
              rw [hresp, List.append_assoc]
              exact h3)
        refine ⟨hih.1, ?_, ?_⟩
        · rw [hih.2.1, hmc]
          omega
        · rw [hih.2.2, hresp, hcs, List.append_assoc]

/-- C5: with no sentinel anywhere in the stream, the consumption loop
terminates exactly when the count of distinct counted speakers
(non-user, non-tool messages) reaches 6: it consumes exactly the
minimal prefix whose counted sources hold 6 distinct speakers - not
fewer messages and not more - provided that prefix is within the
30-message ceiling, and at that point the distinct count is exactly 6. -/
theorem deliberation_stops_exactly_at_six_speakers
    (msgs : List AgentMessage) (j : Nat)
    (hsent : ∀ m ∈ msgs, pyIn sentinel m.content = false)
    (hquota : 6 ≤ distinctCount (counted_sources (msgs.take j)))
    (hmin : ∀ i < j, distinctCount (counted_sources (msgs.take i)) < 6)
    (hceil : j ≤ 30) :
    (consumeLoop {} msgs).2 = .quotaOrSentinel ∧
      (consumeLoop {} msgs).1.message_count = j ∧
      (consumeLoop {} msgs).1.agent_responses = counted_sources (msgs.take j) ∧
      distinctCount (counted_sources (msgs.take j)) = 6 := by
  have hmain := consumeLoop_reaches_quota msgs {} j hsent
    (by show distinctCount [] < 6; decide)
    (by show 0 + j ≤ 30; omega)
    (by show 6 ≤ distinctCount ([] ++ counted_sources (msgs.take j)); simpa using hquota)
    (by intro i hi
        show distinctCount ([] ++ counted_sources (msgs.take i)) < 6
        simpa using hmin i hi)
  refine ⟨hmain.1, by simpa using hmain.2.1, by simpa using hmain.2.2, ?_⟩
  rcases j with _ | j'
  · exfalso
    simp only [List.take_zero] at hquota
    simp only [counted_sources, List.filter_nil, List.map_nil] at hquota
    exact absurd hquota (by decide)
  · have hstep : distinctCount (counted_sources (msgs.take (j' + 1))) ≤
        distinctCount (counted_sources (msgs.take j')) + 1 := by
      have htake : msgs.take (j' + 1) = msgs.take j' ++ (msgs[j']?).toList :=
        List.take_succ
      have hsplit2 : counted_sources (msgs.take (j' + 1)) =
          counted_sources (msgs.take j') ++ counted_sources ((msgs[j']?).toList) := by
        simp [htake, counted_sources]
      rw [hsplit2]
      have hlen : (counted_sources ((msgs[j']?).toList)).length ≤ 1 := by
        have h1 : (counted_sources ((msgs[j']?).toList)).length ≤
            ((msgs[j']?).toList).length := by
          simp only [counted_sources, List.length_map]
          exact List.length_filter_le _ _
        have h2 : ((msgs[j']?).toList).length ≤ 1 := by
          cases msgs[j']? <;> simp
        omega
      calc distinctCount
            (counted_sources (msgs.take j') ++ counted_sources ((msgs[j']?).toList))
          ≤ distinctCount (counted_sources (msgs.take j'))
              + (counted_sources ((msgs[j']?).toList)).length :=
            distinctCount_append_le _ _
        _ ≤ distinctCount (counted_sources (msgs.take j')) + 1 := by omega
    have hprev := hmin j' (by omega)
    omega

/-- C5 (witness): a stream of the six fixed participants speaking once
each, with no sentinel, stops with the quota break after exactly 6
messages. -/
theorem deliberation_stops_exactly_at_six_speakers_witness :
    (consumeLoop {}
        [{ source := "OrganiserAgent", content := "market data gathered" },
         { source := "RiskManager", content := "risk assessed" },
         { source := "DataAnalyst", content := "fundamentals reviewed" },
         { source := "QuantitativeAnalyst", content := "signals analyzed" },
         { source := "StrategyDeveloper", content := "strategy set" },
         { source := "ReportAgent", content := "final report" }]).2
      = StopReason.quotaOrSentinel ∧
      (consumeLoop {}
          [{ source := "OrganiserAgent", content := "market data gathered" },
           { source := "RiskManager", content := "risk assessed" },
           { source := "DataAnalyst", content := "fundamentals reviewed" },
           { source := "QuantitativeAnalyst", content := "signals analyzed" },
           { source := "StrategyDeveloper", content := "strategy set" },
           { source := "ReportAgent", content := "final report" }]).1.message_count = 6 := by
  have h := deliberation_stops_exactly_at_six_speakers
    [{ source := "OrganiserAgent", content := "market data gathered" },
     { source := "RiskManager", content := "risk assessed" },
     { source := "DataAnalyst", content := "fundamentals reviewed" },
     { source := "QuantitativeAnalyst", content := "signals analyzed" },
     { source := "StrategyDeveloper", content := "strategy set" },
     { source := "ReportAgent", content := "final report" }] 6
    (by decide) (by decide) (by decide) (by decide)
  exact ⟨h.1, h.2.1⟩

/-- One loop iteration preserves "every extracted recommendation is
non-empty". -/
lemma consumeStep_rec_inv (st : LoopState) (m : AgentMessage)
    (hinv : ∀ r, st.recommendation = some r → r ≠ "") :
    ∀ r, (consumeStep st m).recommendation = some r → r ≠ "" := by
  intro r h
  by_cases hc : countedResponder m
  · by_cases hr : m.source = "ReportAgent"
    · simp only [consumeStep, if_pos hc, if_pos hr] at h
      exact stepExtractRec_ne_empty st.recommendation hinv m.content r h
    · simp only [consumeStep, if_pos hc, if_neg hr] at h
      exact hinv r h
  · simp only [consumeStep, if_neg hc] at h
    exact hinv r h

/-- The whole consumption loop preserves "every extracted
recommendation is non-empty". -/
lemma consumeLoop_rec_inv :
    ∀ (msgs : List AgentMessage) (st : LoopState),
      (∀ r, st.recommendation = some r → r ≠ "") →
      ∀ r, (consumeLoop st msgs).1.recommendation = some r → r ≠ "" := by
  intro msgs
  induction msgs with
  | nil => intro st hinv r h; exact hinv r h
  | cons m rest ih =>
    intro st hinv r h
    simp only [consumeLoop] at h
    split at h
    · exact consumeStep_rec_inv st m hinv r h
    · split at h
      · exact consumeStep_rec_inv st m hinv r h
      · exact ih (consumeStep st m) (consumeStep_rec_inv st m hinv) r h

/-- C6: a run that stops on the 30-message ceiling still returns a
structured result: the recommendation is a non-empty string, and when
extraction collected nothing (no value, no report) the result falls
back to HOLD with the default confidence 50.  (`run_fast_6agent_analysis`
is a total function of the stream: the break on the ceiling is ordinary
control flow, not an exception.) -/
theorem ceiling_synthesizes_structured_result (symbol : String)
    (msgs : List AgentMessage)
    (_hceil : (consumeLoop {} msgs).2 = StopReason.ceiling) :
    (run_fast_6agent_analysis symbol msgs).recommendation ≠ "" ∧
      ((consumeLoop {} msgs).1.recommendation = none →
        (consumeLoop {} msgs).1.confidence = none →
        (consumeLoop {} msgs).1.final_report = "" →
        (run_fast_6agent_analysis symbol msgs).recommendation = "HOLD" ∧
          (run_fast_6agent_analysis symbol msgs).confidence = 50) := by
  constructor
  · have hinv := consumeLoop_rec_inv msgs {} (by intro r h; exact absurd h (by simp))
    exact default_recommendation_ne_empty _ _ hinv
  · intro h1 h2 h3
    constructor
    · show default_recommendation (consumeLoop {} msgs).1.recommendation
        (strip_markers (consumeLoop {} msgs).1.final_report) = "HOLD"
      rw [h1, h3]
      decide
    · show default_confidence (consumeLoop {} msgs).1.confidence
        (strip_markers (consumeLoop {} msgs).1.final_report) = 50
      rw [h2, h3]
      decide

/-- C6 (witness): a 30-message stream of two alternating speakers (no
sentinel, no ReportAgent) hits the ceiling, and the synthesized result
is HOLD at confidence 50. -/
theorem ceiling_synthesizes_structured_result_witness :
    (run_fast_6agent_analysis "AAPL"
        ((List.range 30).map (fun i =>
          { source := if i % 2 = 0 then "OrganiserAgent" else "RiskManager"
            content := "still deliberating" }))).recommendation = "HOLD" ∧
      (run_fast_6agent_analysis "AAPL"
          ((List.range 30).map (fun i =>
            { source := if i % 2 = 0 then "OrganiserAgent" else "RiskManager"
              content := "still deliberating" }))).confidence = 50 := by
  have h := ceiling_synthesizes_structured_result "AAPL"
    ((List.range 30).map (fun i =>
      { source := if i % 2 = 0 then "OrganiserAgent" else "RiskManager"
        content := "still deliberating" }))
    (by decide)
  exact h.2 (by decide) (by decide) (by decide)

end MarketingAgents
